import Mathlib

/-!
Verification of `airflow/contrib/operators/postgres_to_csv_operator.py`
(`PostgresToCsvOperator`). The operator's construction, SQL-field
normalization, watermark resolution, CSV creation and the `execute`
orchestration are embedded shallowly. External collaborators are modelled
as explicit inputs and outputs: the two `PostgresHook` query results
(`get_first` for the watermark query, `get_records` for the main query)
and the `sqlparse` tokenization of the SQL text are inputs to `execute`,
and the written CSV file is returned as its list of lines. Python
exceptions are modelled with `Except String`; the error string carries
the Python exception kind and message.
-/

/-- A Python scalar value as it appears in query results and bind
parameters: `None`, a string, or an integer. -/
inductive Value where
  | none
  | str (s : String)
  | int (n : Int)
deriving DecidableEq, Repr

/-- Python truthiness of a scalar: `None`, the empty string and `0` are
falsy, all other values are truthy. -/
def Value.falsy : Value → Bool
  | Value.none => true
  | Value.str s => s == ""
  | Value.int n => n == 0

/-- ASCII whitespace recognized by Python str.strip. -/
def py_is_space (c : Char) : Bool :=
  c == ' ' || c == '\t' || c == '\n' || c == '\r' || c == '\x0b' || c == '\x0c'

/-- Python str.lower on one character (ASCII, as used on SQL text). -/
def py_lower_char (c : Char) : Char := c.toLower

/-- Does the second list start with the first? -/
def list_starts_with : List Char → List Char → Bool
  | [], _ => true
  | _ :: _, [] => false
  | p :: ps, c :: cs => p == c && list_starts_with ps cs

/-- Python substring containment (the `in` operator on str). -/
def py_contains_sub (pat : List Char) : List Char → Bool
  | [] => list_starts_with pat []
  | c :: cs => list_starts_with pat (c :: cs) || py_contains_sub pat cs

/-- Fuel-driven worker for Python str.split with a non-empty separator:
scans left to right, cutting at each non-overlapping occurrence of the
separator. The fuel is at least the length of the scanned list plus one,
so the fuel-exhausted branch is never reached. -/
def py_split_go (pat : List Char) : Nat → List Char → List Char → List (List Char)
  | 0, s, acc => [acc.reverse ++ s]
  | _ + 1, [], acc => [acc.reverse]
  | fuel + 1, c :: cs, acc =>
    if list_starts_with pat (c :: cs) then
      acc.reverse :: py_split_go pat fuel ((c :: cs).drop pat.length) []
    else
      py_split_go pat fuel cs (c :: acc)

/-- Python str.split with an explicit non-empty separator. -/
def py_split (pat : List Char) (s : List Char) : List (List Char) :=
  py_split_go pat (s.length + 1) s []

/-- Python str.strip: drop leading and trailing whitespace. -/
def py_strip (s : List Char) : List Char :=
  ((s.dropWhile py_is_space).reverse.dropWhile py_is_space).reverse

/-- Python str.replace of every double-quote character by the empty
string, as in the source's `replace('"', '')`. -/
def py_remove_quotes (s : List Char) : List Char :=
  s.filter (fun c => !(c == '"'))

/-- Embedding of `PostgresToCsvOperator._parse_sql_field_to_csv_header`. -/
def _parse_sql_field_to_csv_header (sql_field : String) : String :=
  let csv_header := py_remove_quotes (py_strip (sql_field.data.map py_lower_char))
  let csv_header :=
    if py_contains_sub " as ".data csv_header then
      (py_split " as ".data csv_header).getLastD []
    else csv_header
  let csv_header :=
    if csv_header.contains '.' then (py_split ".".data csv_header).getD 1 []
    else csv_header
  let csv_header :=
    if csv_header.contains ' ' then (py_split " ".data csv_header).getD 1 []
    else csv_header
  String.mk csv_header

/-- A token of one parsed SQL statement, as the source's loop over
`sqlparse.parse(self.sql)[0].tokens` distinguishes them: either an
`sqlparse.sql.IdentifierList` carrying the values of its identifiers (in
select-list order), or any other token kind. The tokenization itself is
performed by the external `sqlparse` library, so it enters the embedding
as an input. -/
inductive SqlToken where
  | identifierList (identifiers : List String)
  | other (raw : String)
deriving DecidableEq, Repr

/-- Is this token an `sqlparse.sql.IdentifierList`? -/
def SqlToken.isIdentifierList : SqlToken → Bool
  | SqlToken.identifierList _ => true
  | SqlToken.other _ => false

/-- The first loop of `_get_csv_headers_from_sql`: walk the statement's
tokens, skip everything that is not an `IdentifierList`, and collect the
values of the identifiers of every `IdentifierList` in order. -/
def collect_identifiers : List SqlToken → List String
  | [] => []
  | SqlToken.identifierList ids :: rest => ids ++ collect_identifiers rest
  | SqlToken.other _ :: rest => collect_identifiers rest

/-- Embedding of `PostgresToCsvOperator._get_csv_headers_from_sql`. Its
input is the result of `sqlparse.parse(self.sql)`: the list of parsed
statements, each given by its token list. The source indexes this list
with `[0]`, so an empty parse result (as `sqlparse` produces for an empty
SQL text) raises an IndexError; otherwise every collected field value is
normalized by `_parse_sql_field_to_csv_header`. -/
def _get_csv_headers_from_sql (parse_result : List (List SqlToken)) :
    Except String (List String) :=
  match parse_result with
  | [] => Except.error "IndexError: tuple index out of range"
  | stmt :: _ =>
    Except.ok ((collect_identifiers stmt).map _parse_sql_field_to_csv_header)

/-- The `parameters` argument of the constructor: either a Python dict
(a key-value mapping, insertion-ordered) or some non-mapping Python
value, of which only the truthiness matters to the source. -/
inductive PyParameters where
  | dict (entries : List (String × Value))
  | nonMapping (truthy : Bool)
deriving DecidableEq, Repr

/-- Python truthiness of the `parameters` value: a dict is truthy iff
non-empty. -/
def PyParameters.truthy : PyParameters → Bool
  | PyParameters.dict entries => !entries.isEmpty
  | PyParameters.nonMapping t => t

/-- `isinstance(parameters, dict)`. -/
def PyParameters.isDict : PyParameters → Bool
  | PyParameters.dict _ => true
  | PyParameters.nonMapping _ => false

/-- Python dict lookup on an insertion-ordered association list. -/
def dict_lookup : List (String × Value) → String → Option Value
  | [], _ => Option.none
  | (k0, v0) :: rest, k => if k0 = k then some v0 else dict_lookup rest k

/-- Python `d.update({k: v})` for a single key: overwrite the value in
place when the key is present, otherwise append the new binding. -/
def dict_update : List (String × Value) → String → Value → List (String × Value)
  | [], k, v => [(k, v)]
  | (k0, v0) :: rest, k, v =>
    if k0 = k then (k, v) :: rest else (k0, v0) :: dict_update rest k v

/-- Remove every binding of a key, leaving the other bindings in order
(used to state that an update leaves all other bindings unchanged). -/
def dict_erase : List (String × Value) → String → List (String × Value)
  | [], _ => []
  | (k0, v0) :: rest, k =>
    if k0 = k then dict_erase rest k else (k0, v0) :: dict_erase rest k

/-- `PyParameters.update`: Python `self.parameters.update({k: v})`. On a
dict it is `dict_update`; calling `.update` on a non-mapping raises an
AttributeError. -/
def PyParameters.update : PyParameters → String → Value → Except String PyParameters
  | PyParameters.dict entries, k, v => Except.ok (PyParameters.dict (dict_update entries k v))
  | PyParameters.nonMapping _, _, _ =>
    Except.error "AttributeError: object has no attribute update"

/-- Lookup through `PyParameters` (only a dict holds bindings). -/
def PyParameters.lookup : PyParameters → String → Option Value
  | PyParameters.dict entries, k => dict_lookup entries k
  | PyParameters.nonMapping _, _ => Option.none

/-- The state of a constructed `PostgresToCsvOperator`: its instance
attributes as assigned in `__init__`. -/
structure PostgresToCsvOperator where
  sql : String
  postgres_conn_id : String
  destination_conn_id : String
  csv_file_path : String
  parameters : PyParameters
  increment : Bool
  headers : Option (List String)
  destination_table : String
  last_modified_fname : String
  last_updated_sql : String
  default_last_updated_value : Value
deriving DecidableEq, Repr

/-- Python truthiness of `self.headers` (`None` or an empty list is
falsy). -/
def py_truthy_headers : Option (List String) → Bool
  | Option.none => false
  | some l => !l.isEmpty

/-- Embedding of `PostgresToCsvOperator.__init__`: assign the instance
attributes, then validate: a truthy non-dict `parameters` raises a
SyntaxError, and with `increment` on, an empty `last_modified_fname` or
`destination_table` raises a SyntaxError. A raise means construction
fails and no operator exists, so its `execute` can never run. -/
def PostgresToCsvOperator.init
    (csv_file_path : String) (parameters : PyParameters) (sql : String)
    (postgres_conn_id : String) (destination_conn_id : String)
    (destination_table : String) (last_modified_fname : String)
    (headers : Option (List String)) (increment : Bool)
    (default_last_updated_value : Value) :
    Except String PostgresToCsvOperator :=
  if parameters.truthy && !parameters.isDict then
    Except.error "SyntaxError: Argument \x27parameters\x27 must be type - dict"
  else if increment && last_modified_fname == "" then
    Except.error "SyntaxError: Argument \x27last_modified_fname\x27 is required for incremental select"
  else if increment && destination_table == "" then
    Except.error "SyntaxError: Argument \x27destination_table\x27 is required for incremental select"
  else
    Except.ok
      { sql := sql
        postgres_conn_id := postgres_conn_id
        destination_conn_id := destination_conn_id
        csv_file_path := csv_file_path
        parameters := parameters
        increment := increment
        headers := headers
        destination_table := destination_table
        last_modified_fname := last_modified_fname
        last_updated_sql := "SELECT MAX(\x7b\x7b task.last_modified_fname \x7d\x7d) FROM \x7b\x7b task.destination_table \x7d\x7d"
        default_last_updated_value := default_last_updated_value }

/-- Embedding of `PostgresToCsvOperator._extract_last_updated_value`.
Its input is the result of `hook.get_first(sql=self.last_updated_sql)`
on the destination connection: `none` when the query yields no row,
`some row` otherwise. The source subscripts that result with `[0]`
unconditionally, so a missing row raises a TypeError (and an empty row
an IndexError); a falsy first value falls back to
`self.default_last_updated_value`, any other value is returned as is. -/
def PostgresToCsvOperator.extract_last_updated_value
    (op : PostgresToCsvOperator) (firstRow : Option (List Value)) :
    Except String Value :=
  match firstRow with
  | Option.none => Except.error "TypeError: NoneType object is not subscriptable"
  | some row =>
    match row.head? with
    | Option.none => Except.error "IndexError: tuple index out of range"
    | some last_updated_field =>
      if last_updated_field.falsy then Except.ok op.default_last_updated_value
      else Except.ok last_updated_field

/-- Python str() of a scalar as the csv module writes it: `None` becomes
the empty field, numbers their decimal form. -/
def value_to_csv_cell : Value → String
  | Value.none => ""
  | Value.str s => s
  | Value.int n => toString n

/-- Minimal-quoting rule of the csv module: a field is wrapped in double
quotes, with embedded double quotes doubled, iff it contains the
delimiter, the quote character or a line break. -/
def csv_quote_field (s : String) : String :=
  if s.data.contains ',' || s.data.contains '"' || s.data.contains '\n'
      || s.data.contains '\r' then
    String.mk ('"' :: (s.data.flatMap (fun c => if c == '"' then ['"', '"'] else [c])) ++ ['"'])
  else s

/-- Join the quoted cells of one CSV line with the comma delimiter. -/
def csv_row (cells : List String) : String :=
  match cells with
  | [] => ""
  | [x] => csv_quote_field x
  | x :: y :: rest => csv_quote_field x ++ "," ++ csv_row (y :: rest)

/-- Embedding of `PostgresToCsvOperator._create_csv`: the content of the
file written to `self.csv_file_path`, as its list of lines — the header
row written by `csv.DictWriter.writeheader()` followed by one line per
record, in result order, written by `csv.writer.writerow`. -/
def _create_csv (results : List (List Value)) (headers : List String) : List String :=
  csv_row headers :: results.map (fun row => csv_row (row.map value_to_csv_cell))

/-- First phase of `execute`: when `self.increment` is set, resolve the
watermark and merge it into `self.parameters` under the fixed key
`last_updated_value` (mutating the attribute); otherwise leave the
operator untouched. -/
def PostgresToCsvOperator.step_increment
    (op : PostgresToCsvOperator) (destFirstRow : Option (List Value)) :
    Except String PostgresToCsvOperator :=
  if op.increment then
    match op.extract_last_updated_value destFirstRow with
    | Except.error e => Except.error e
    | Except.ok v =>
      match op.parameters.update "last_updated_value" v with
      | Except.error e => Except.error e
      | Except.ok ps => Except.ok { op with parameters := ps }
  else Except.ok op

/-- Header phase of `execute`: `if not self.headers: self.headers =
self._get_csv_headers_from_sql()`. Returns the operator (with the
`headers` attribute possibly overwritten) together with the header list
passed on to `_create_csv`. -/
def PostgresToCsvOperator.step_headers
    (op : PostgresToCsvOperator) (parse_result : List (List SqlToken)) :
    Except String (PostgresToCsvOperator × List String) :=
  if py_truthy_headers op.headers then
    Except.ok (op, op.headers.getD [])
  else
    match _get_csv_headers_from_sql parse_result with
    | Except.error e => Except.error e
    | Except.ok hs => Except.ok ({ op with headers := some hs }, hs)

/-- The observable outcome of one successful `execute` call: the final
operator state (`execute` mutates `self.parameters` and `self.headers`),
the bind parameters passed to `hook.get_records` for the main query, the
headers handed to `_create_csv`, and the lines of the written file. -/
structure ExecResult where
  finalOp : PostgresToCsvOperator
  paramsUsed : PyParameters
  headersUsed : List String
  fileLines : List String
deriving DecidableEq, Repr

/-- Embedding of `PostgresToCsvOperator.execute`. External inputs:
`destFirstRow` is what `hook.get_first` returns for the watermark query
(consulted only when `self.increment` is set), `parse_result` is the
`sqlparse.parse` tokenization of `self.sql`, and `results` is what
`hook.get_records` returns for the main query. The main query runs with
`self.parameters` as already augmented by the increment phase, and the
file receives the header row followed by the records. -/
def PostgresToCsvOperator.execute
    (op : PostgresToCsvOperator) (destFirstRow : Option (List Value))
    (parse_result : List (List SqlToken)) (results : List (List Value)) :
    Except String ExecResult :=
  match op.step_increment destFirstRow with
  | Except.error e => Except.error e
  | Except.ok op1 =>
    match op1.step_headers parse_result with
    | Except.error e => Except.error e
    | Except.ok (op2, hs) =>
      Except.ok
        { finalOp := op2
          paramsUsed := op1.parameters
          headersUsed := hs
          fileLines := _create_csv results hs }

/-- Is an `Except` a success? Python-wise: did the call return normally
rather than raise? -/
def except_is_ok {α : Type} : Except String α → Bool
  | Except.ok _ => true
  | Except.error _ => false

/-- A non-incremental operator with derived headers, as built by
`__init__` for `sql='select a.b, c.d from t'` with no explicit headers. -/
def sample_op : PostgresToCsvOperator :=
  { sql := "select a.b, c.d from t"
    postgres_conn_id := "src"
    destination_conn_id := "dst"
    csv_file_path := "out.csv"
    parameters := PyParameters.dict []
    increment := false
    headers := Option.none
    destination_table := ""
    last_modified_fname := ""
    last_updated_sql := "SELECT MAX(\x7b\x7b task.last_modified_fname \x7d\x7d) FROM \x7b\x7b task.destination_table \x7d\x7d"
    default_last_updated_value := Value.str "1970-01-01 00:00:00+00:00" }

/-- The `sqlparse` tokenization of `sample_op.sql`: one statement whose
select-list is the identifier list `a.b, c.d`. -/
def sample_parse_result : List (List SqlToken) :=
  [[SqlToken.other "select ",
    SqlToken.identifierList ["a.b", "c.d"],
    SqlToken.other " from t"]]

/-- The `sqlparse` tokenization of the single-field select statement
`select a from t`: sqlparse groups only comma-separated identifiers into
an `sqlparse.sql.IdentifierList`, so the lone select-list field appears
as a plain `Identifier` token, which the source's loop skips like every
other non-IdentifierList token. -/
def single_field_parse_result : List (List SqlToken) :=
  [[SqlToken.other "select ", SqlToken.other "a", SqlToken.other " from t"]]

/-- An incremental operator with one caller-supplied bind parameter and
explicit headers. -/
def sample_inc_op : PostgresToCsvOperator :=
  { sample_op with
      increment := true
      parameters := PyParameters.dict [("x", Value.int 1)]
      headers := some ["h"]
      destination_table := "dest"
      last_modified_fname := "updated_at" }

/-- A watermark-query result: one row whose single value is truthy. -/
def watermark_row : Option (List Value) := some [Value.str "2020-05-01"]

/-- What `sample_inc_op.execute watermark_row [] []` produces: the
watermark is appended to the bind parameters, the supplied headers are
used, and the file holds only the header row. -/
def sample_inc_result : ExecResult :=
  { finalOp :=
      { sample_inc_op with
          parameters :=
            PyParameters.dict
              [("x", Value.int 1), ("last_updated_value", Value.str "2020-05-01")] }
    paramsUsed :=
      PyParameters.dict
        [("x", Value.int 1), ("last_updated_value", Value.str "2020-05-01")]
    headersUsed := ["h"]
    fileLines := ["h"] }

/-- What `sample_op.execute Option.none sample_parse_result
[[Value.int 1, Value.str "x"]]` produces: headers are derived from the
SQL text and the file holds the header row plus one record. -/
def sample_exec_result : ExecResult :=
  { finalOp := { sample_op with headers := some ["b", "d"] }
    paramsUsed := PyParameters.dict []
    headersUsed := ["b", "d"]
    fileLines := ["b,d", "1,x"] }

/-- An operator whose caller explicitly supplied an empty header list. -/
def sample_empty_headers_op : PostgresToCsvOperator :=
  { sample_op with headers := some ([] : List String) }

theorem dict_update_lookup_self (l : List (String × Value)) (k : String) (v : Value) :
    dict_lookup (dict_update l k v) k = some v := by
  induction l with
  | nil => simp [dict_update, dict_lookup]
  | cons hd tl ih =>
    obtain ⟨k0, v0⟩ := hd
    by_cases h : k0 = k
    · simp [dict_update, dict_lookup, h]
    · simp [dict_update, dict_lookup, h, ih]

theorem dict_update_erase (l : List (String × Value)) (k : String) (v : Value) :
    dict_erase (dict_update l k v) k = dict_erase l k := by
  induction l with
  | nil => simp [dict_update, dict_erase]
  | cons hd tl ih =>
    obtain ⟨k0, v0⟩ := hd
    by_cases h : k0 = k
    · simp [dict_update, dict_erase, h]
    · simp [dict_update, dict_erase, h, ih]

theorem collect_identifiers_append (l1 l2 : List SqlToken) :
    collect_identifiers (l1 ++ l2) = collect_identifiers l1 ++ collect_identifiers l2 := by
  induction l1 with
  | nil => rfl
  | cons hd tl ih => cases hd <;> simp [collect_identifiers, ih]

theorem collect_identifiers_of_no_identifier_list (l : List SqlToken)
    (h : ∀ t ∈ l, t.isIdentifierList = false) :
    collect_identifiers l = [] := by
  induction l with
  | nil => rfl
  | cons hd tl ih =>
    cases hd with
    | identifierList ids =>
      have := h (SqlToken.identifierList ids) (by simp)
      simp [SqlToken.isIdentifierList] at this
    | other s =>
      simp only [collect_identifiers]
      exact ih fun t ht => h t (by simp [ht])

theorem step_increment_ok_of_not_increment (op : PostgresToCsvOperator)
    (d : Option (List Value)) (h : op.increment = false) :
    op.step_increment d = Except.ok op := by
  simp [PostgresToCsvOperator.step_increment, h]

theorem step_increment_ok_cases (op : PostgresToCsvOperator) (d : Option (List Value))
    (op1 : PostgresToCsvOperator) (h : op.step_increment d = Except.ok op1) :
    (op.increment = false ∧ op1 = op) ∨
    (op.increment = true ∧ ∃ v ps, op.extract_last_updated_value d = Except.ok v ∧
      op.parameters.update "last_updated_value" v = Except.ok ps ∧
      op1 = { op with parameters := ps }) := by
  unfold PostgresToCsvOperator.step_increment at h
  cases hinc : op.increment with
  | false =>
    rw [hinc] at h
    simp only [Bool.false_eq_true, if_false, Except.ok.injEq] at h
    exact Or.inl ⟨rfl, h.symm⟩
  | true =>
    rw [hinc] at h
    simp only [if_true] at h
    cases hv : op.extract_last_updated_value d with
    | error e => rw [hv] at h; dsimp only at h; cases h
    | ok v =>
      rw [hv] at h
      dsimp only at h
      cases hp : op.parameters.update "last_updated_value" v with
      | error e => rw [hp] at h; dsimp only at h; cases h
      | ok ps =>
        rw [hp] at h
        dsimp only at h
        simp only [Except.ok.injEq] at h
        exact Or.inr ⟨rfl, v, ps, rfl, hp, h.symm⟩

theorem step_headers_ok_cases (op : PostgresToCsvOperator)
    (parse_result : List (List SqlToken)) (op2 : PostgresToCsvOperator)
    (hs : List String) (h : op.step_headers parse_result = Except.ok (op2, hs)) :
    (py_truthy_headers op.headers = true ∧ op2 = op ∧ op.headers = some hs) ∨
    (py_truthy_headers op.headers = false ∧
      _get_csv_headers_from_sql parse_result = Except.ok hs ∧
      op2 = { op with headers := some hs }) := by
  unfold PostgresToCsvOperator.step_headers at h
  cases ht : py_truthy_headers op.headers with
  | true =>
    rw [ht] at h
    simp only [if_true, Except.ok.injEq, Prod.mk.injEq] at h
    refine Or.inl ⟨rfl, h.1.symm, ?_⟩
    cases hh : op.headers with
    | none => rw [hh] at ht; simp [py_truthy_headers] at ht
    | some l =>
      rw [hh] at h
      simp only [Option.getD_some] at h
      rw [h.2]
  | false =>
    rw [ht] at h
    simp only [Bool.false_eq_true, if_false] at h
    cases hd : _get_csv_headers_from_sql parse_result with
    | error e => rw [hd] at h; dsimp only at h; cases h
    | ok ds =>
      rw [hd] at h
      dsimp only at h
      simp only [Except.ok.injEq, Prod.mk.injEq] at h
      obtain ⟨h1, h2⟩ := h
      subst h2
      exact Or.inr ⟨rfl, rfl, h1.symm⟩

theorem execute_ok_inv (op : PostgresToCsvOperator) (d : Option (List Value))
    (pr : List (List SqlToken)) (res : List (List Value)) (r : ExecResult)
    (h : op.execute d pr res = Except.ok r) :
    ∃ op1, op.step_increment d = Except.ok op1 ∧
      op1.step_headers pr = Except.ok (r.finalOp, r.headersUsed) ∧
      r.paramsUsed = op1.parameters ∧
      r.fileLines = _create_csv res r.headersUsed := by
  unfold PostgresToCsvOperator.execute at h
  cases h1 : op.step_increment d with
  | error e => rw [h1] at h; dsimp only at h; cases h
  | ok op1 =>
    rw [h1] at h
    dsimp only at h
    cases h2 : op1.step_headers pr with
    | error e => rw [h2] at h; dsimp only at h; cases h
    | ok pair =>
      obtain ⟨op2, hs⟩ := pair
      rw [h2] at h
      dsimp only at h
      simp only [Except.ok.injEq] at h
      subst h
      exact ⟨op1, rfl, h2, rfl, rfl⟩

theorem step_increment_preserves_headers (op : PostgresToCsvOperator)
    (d : Option (List Value)) (op1 : PostgresToCsvOperator)
    (h : op.step_increment d = Except.ok op1) : op1.headers = op.headers := by
  rcases step_increment_ok_cases op d op1 h with ⟨_, rfl⟩ | ⟨_, v, ps, _, _, rfl⟩ <;> rfl

/-- Claim C1 (counterexample): the claim says a watermark query yielding
no row makes the resolver return the configured default, but the source
subscripts `hook.get_first(...)` with `[0]` unconditionally, so a missing
row raises a TypeError instead: at the concrete operator `sample_op` the
resolver applied to a missing row does not return the default. -/
theorem watermark_no_row_not_default :
    sample_op.extract_last_updated_value Option.none ≠
      Except.ok sample_op.default_last_updated_value :=
  fun h => Except.noConfusion h

/-- Claim C1 (amended): when the watermark query yields a row, the
resolver returns the configured default watermark exactly at a
falsy/null first value and otherwise the queried value unchanged; when
the query yields no row, a TypeError propagates instead of the default
being returned. -/
theorem watermark_fallback_spec (op : PostgresToCsvOperator) (row : List Value)
    (v : Value) (hv : row.head? = some v) :
    op.extract_last_updated_value (some row) =
      Except.ok (if v.falsy then op.default_last_updated_value else v) ∧
    op.extract_last_updated_value Option.none =
      Except.error "TypeError: NoneType object is not subscriptable" := by
  constructor
  · unfold PostgresToCsvOperator.extract_last_updated_value
    dsimp only
    rw [hv]
    dsimp only
    cases hf : v.falsy <;> simp [hf]
  · rfl

/-- Witness for C1 at a concrete row holding a truthy scalar. -/
theorem watermark_fallback_spec_witness :
    sample_op.extract_last_updated_value (some [Value.str "2020-05-01"]) =
      Except.ok (if (Value.str "2020-05-01").falsy then
        sample_op.default_last_updated_value else Value.str "2020-05-01") ∧
    sample_op.extract_last_updated_value Option.none =
      Except.error "TypeError: NoneType object is not subscriptable" :=
  watermark_fallback_spec sample_op [Value.str "2020-05-01"] (Value.str "2020-05-01") rfl

/-- Claim C2: the field normalization maps the select-list expressions
`a.b`, `a.b as c`, `"a"."b" AS "c"` and `a b` to the headers `b`, `c`,
`c` and `b` respectively, by lowercasing/trimming and double-quote
stripping, then keeping the text after the last ` as `, then the segment
after the first `.` of the dot split, then the token at index 1 of the
space split — the order in which `_parse_sql_field_to_csv_header`
applies its steps. -/
theorem parse_field_examples :
    _parse_sql_field_to_csv_header "a.b" = "b" ∧
    _parse_sql_field_to_csv_header "a.b as c" = "c" ∧
    _parse_sql_field_to_csv_header "\"a\".\"b\" AS \"c\"" = "c" ∧
    _parse_sql_field_to_csv_header "a b" = "b" := by
  refine ⟨?_, ?_, ?_, ?_⟩ <;> decide

/-- Claim C3 (counterexample): the claim promises exactly `n` headers
for every select-list of `n >= 1` field expressions, but for the
single-field statement `select a from t` (`n = 1`) sqlparse emits a
plain `Identifier` and no `IdentifierList` token, so header derivation
returns the empty sequence — zero headers, not one. -/
theorem single_field_select_yields_no_headers :
    _get_csv_headers_from_sql single_field_parse_result = Except.ok [] ∧
    ([] : List String).length ≠ 1 :=
  ⟨rfl, by decide⟩

/-- Claim C3 (amended): for a statement whose token stream carries the
select-list as an `IdentifierList` token of `n` field expressions — as
sqlparse produces exactly when the select-list has two or more
comma-separated fields — header derivation returns exactly those `n`
headers, one per field, in select-list order; for a statement with no
`IdentifierList` token (as sqlparse produces for `select *`, and also
for a single-field select-list, represented as a plain `Identifier`) it
returns the empty sequence. -/
theorem headers_from_sql_counts (pre post : List SqlToken) (fs : List String)
    (hpre : ∀ t ∈ pre, t.isIdentifierList = false)
    (hpost : ∀ t ∈ post, t.isIdentifierList = false) :
    _get_csv_headers_from_sql [pre ++ SqlToken.identifierList fs :: post] =
      Except.ok (fs.map _parse_sql_field_to_csv_header) ∧
    (fs.map _parse_sql_field_to_csv_header).length = fs.length ∧
    _get_csv_headers_from_sql [pre ++ post] = Except.ok [] := by
  have h1 : collect_identifiers (pre ++ SqlToken.identifierList fs :: post) = fs := by
    rw [collect_identifiers_append,
      collect_identifiers_of_no_identifier_list pre hpre]
    simp [collect_identifiers, collect_identifiers_of_no_identifier_list post hpost]
  have h2 : collect_identifiers (pre ++ post) = [] := by
    rw [collect_identifiers_append,
      collect_identifiers_of_no_identifier_list pre hpre,
      collect_identifiers_of_no_identifier_list post hpost]
    rfl
  refine ⟨?_, by simp, ?_⟩
  · simp [_get_csv_headers_from_sql, h1]
  · simp [_get_csv_headers_from_sql, h2]

/-- Witness for C3 at a concrete two-field select-list. -/
theorem headers_from_sql_counts_witness :
    _get_csv_headers_from_sql
        [[SqlToken.other "select "] ++
          SqlToken.identifierList ["a.b", "c.d"] :: [SqlToken.other " from t"]] =
      Except.ok (["a.b", "c.d"].map _parse_sql_field_to_csv_header) ∧
    (["a.b", "c.d"].map _parse_sql_field_to_csv_header).length = ["a.b", "c.d"].length ∧
    _get_csv_headers_from_sql [[SqlToken.other "select "] ++ [SqlToken.other " from t"]] =
      Except.ok [] :=
  headers_from_sql_counts [SqlToken.other "select "] [SqlToken.other " from t"]
    ["a.b", "c.d"] (by decide) (by decide)

/-- Claim C4: with the incremental flag on, `execute` merges the
resolved watermark into the bind-parameter mapping under the fixed key
`last_updated_value` before the main query runs, and the main query is
executed with exactly this augmented mapping: the key is bound to the
watermark and, erasing that key, the mapping is unchanged. -/
theorem increment_binds_watermark_param
    (op : PostgresToCsvOperator) (d : Option (List Value))
    (pr : List (List SqlToken)) (res : List (List Value)) (r : ExecResult)
    (entries : List (String × Value)) (v : Value)
    (hinc : op.increment = true)
    (hpar : op.parameters = PyParameters.dict entries)
    (hv : op.extract_last_updated_value d = Except.ok v)
    (hok : op.execute d pr res = Except.ok r) :
    r.paramsUsed = PyParameters.dict (dict_update entries "last_updated_value" v) ∧
    r.paramsUsed.lookup "last_updated_value" = some v ∧
    dict_erase (dict_update entries "last_updated_value" v) "last_updated_value" =
      dict_erase entries "last_updated_value" := by
  obtain ⟨op1, h1, h2, hparams, hfile⟩ := execute_ok_inv op d pr res r hok
  rcases step_increment_ok_cases op d op1 h1 with ⟨hfalse, _⟩ | ⟨_, v', ps, hv', hp, hop1⟩
  · rw [hinc] at hfalse; cases hfalse
  · have hvv : v = v' := Except.ok.inj (hv.symm.trans hv')
    subst hvv
    rw [hpar] at hp
    simp only [PyParameters.update, Except.ok.injEq] at hp
    have hmain : r.paramsUsed = PyParameters.dict (dict_update entries "last_updated_value" v) := by
      rw [hparams, hop1, ← hp]
    refine ⟨hmain, ?_, dict_update_erase entries "last_updated_value" v⟩
    rw [hmain]
    simp [PyParameters.lookup, dict_update_lookup_self]

/-- Witness for C4 at the concrete incremental operator `sample_inc_op`. -/
theorem increment_binds_watermark_param_witness :
    sample_inc_result.paramsUsed =
      PyParameters.dict
        (dict_update [("x", Value.int 1)] "last_updated_value" (Value.str "2020-05-01")) ∧
    sample_inc_result.paramsUsed.lookup "last_updated_value" =
      some (Value.str "2020-05-01") ∧
    dict_erase
        (dict_update [("x", Value.int 1)] "last_updated_value" (Value.str "2020-05-01"))
        "last_updated_value" =
      dict_erase [("x", Value.int 1)] "last_updated_value" :=
  increment_binds_watermark_param sample_inc_op watermark_row [] [] sample_inc_result
    [("x", Value.int 1)] (Value.str "2020-05-01") rfl rfl rfl rfl

/-- Claim C5: constructing with the incremental flag on and an empty (or
defaulted) tracked column name or destination table name raises a
SyntaxError (the spec's ConfigurationError): construction fails, no
operator value exists, and hence its `execute` — the only place queries
run — is never reached. -/
theorem init_incremental_requires_tracking
    (csv_file_path : String) (parameters : PyParameters) (sql : String)
    (postgres_conn_id : String) (destination_conn_id : String)
    (destination_table : String) (last_modified_fname : String)
    (headers : Option (List String)) (default_last_updated_value : Value)
    (hempty : last_modified_fname = "" ∨ destination_table = "") :
    except_is_ok
      (PostgresToCsvOperator.init csv_file_path parameters sql postgres_conn_id
        destination_conn_id destination_table last_modified_fname headers true
        default_last_updated_value) = false := by
  unfold PostgresToCsvOperator.init
  by_cases hp : (parameters.truthy && !parameters.isDict) = true
  · simp [hp, except_is_ok]
  · rcases hempty with h | h
    · subst h
      simp [hp, except_is_ok]
    · subst h
      by_cases hf : (last_modified_fname == "") = true
      · simp [hp, hf, except_is_ok]
      · simp [hp, hf, except_is_ok]

/-- Witness for C5 at a concrete construction with an empty tracked
column name. -/
theorem init_incremental_requires_tracking_witness :
    except_is_ok
      (PostgresToCsvOperator.init "out.csv" (PyParameters.dict []) "select 1" "" ""
        "" "" Option.none true (Value.str "1970-01-01 00:00:00+00:00")) = false :=
  init_incremental_requires_tracking "out.csv" (PyParameters.dict []) "select 1" "" ""
    "" "" Option.none (Value.str "1970-01-01 00:00:00+00:00") (Or.inl rfl)

/-- Claim C6 (counterexample): an explicitly supplied empty header
sequence is not used verbatim: the source's guard `if not self.headers`
is also taken for an empty list, so derivation runs and the writer
receives the derived headers instead of the supplied empty sequence. -/
theorem empty_headers_trigger_derivation :
    sample_empty_headers_op.headers = some ([] : List String) ∧
    sample_empty_headers_op.execute Option.none sample_parse_result [] =
      Except.ok
        { finalOp := { sample_empty_headers_op with headers := some ["b", "d"] }
          paramsUsed := PyParameters.dict []
          headersUsed := ["b", "d"]
          fileLines := ["b,d"] } ∧
    (["b", "d"] : List String) ≠ ([] : List String) :=
  ⟨rfl, rfl, by decide⟩

/-- Claim C6 (amended): the headers passed to the CSV writer are the
caller-supplied ones exactly when `config.headers` is truthy (present
and non-empty); when it is absent or an empty sequence the headers
derived from the SQL text are used; either way the final `headers`
attribute records the headers actually used. -/
theorem headers_selection_spec
    (op : PostgresToCsvOperator) (d : Option (List Value))
    (pr : List (List SqlToken)) (res : List (List Value)) (r : ExecResult)
    (ds : List String)
    (hd : _get_csv_headers_from_sql pr = Except.ok ds)
    (hok : op.execute d pr res = Except.ok r) :
    r.headersUsed =
      (if py_truthy_headers op.headers then op.headers.getD [] else ds) ∧
    r.finalOp.headers = some r.headersUsed := by
  obtain ⟨op1, h1, h2, hparams, hfile⟩ := execute_ok_inv op d pr res r hok
  have hh : op1.headers = op.headers := step_increment_preserves_headers op d op1 h1
  rcases step_headers_ok_cases op1 pr r.finalOp r.headersUsed h2 with
    ⟨ht, hop2, hsome⟩ | ⟨ht, hds, hop2⟩
  · rw [hh] at ht hsome
    refine ⟨?_, ?_⟩
    · rw [if_pos ht, hsome]
      rfl
    · rw [hop2, hh, hsome]
  · rw [hh] at ht
    refine ⟨?_, ?_⟩
    · rw [if_neg (by simp [ht])]
      exact (Except.ok.inj (hd.symm.trans hds)).symm
    · rw [hop2]

/-- Witness for C6 at the concrete operator `sample_inc_op`, whose
caller supplied the non-empty header list. -/
theorem headers_selection_spec_witness :
    sample_inc_result.headersUsed =
      (if py_truthy_headers sample_inc_op.headers then
        sample_inc_op.headers.getD [] else ["b", "d"]) ∧
    sample_inc_result.finalOp.headers = some sample_inc_result.headersUsed :=
  headers_selection_spec sample_inc_op watermark_row sample_parse_result []
    sample_inc_result ["b", "d"] rfl rfl

/-- Claim C7: the written file is the header row followed by one line
per record in original order, so its length is the record count plus
one; and an empty result set is not an error — the same run with zero
records succeeds with a file holding exactly the header row. -/
theorem csv_output_rows_spec (op : PostgresToCsvOperator)
    (d : Option (List Value)) (pr : List (List SqlToken))
    (res : List (List Value)) (r : ExecResult)
    (hok : op.execute d pr res = Except.ok r) :
    r.fileLines =
      csv_row r.headersUsed ::
        res.map (fun row => csv_row (row.map value_to_csv_cell)) ∧
    r.fileLines.length = res.length + 1 ∧
    op.execute d pr [] =
      Except.ok { finalOp := r.finalOp, paramsUsed := r.paramsUsed,
                  headersUsed := r.headersUsed,
                  fileLines := [csv_row r.headersUsed] } := by
  obtain ⟨op1, h1, h2, hparams, hfile⟩ := execute_ok_inv op d pr res r hok
  refine ⟨by rw [hfile]; rfl, by rw [hfile]; simp [_create_csv], ?_⟩
  unfold PostgresToCsvOperator.execute
  rw [h1]
  dsimp only
  rw [h2]
  dsimp only
  rw [hparams]
  rfl

/-- Witness for C7 at a one-record run of `sample_op`. -/
theorem csv_output_rows_spec_witness :
    sample_exec_result.fileLines =
      csv_row sample_exec_result.headersUsed ::
        [[Value.int 1, Value.str "x"]].map
          (fun row => csv_row (row.map value_to_csv_cell)) ∧
    sample_exec_result.fileLines.length = [[Value.int 1, Value.str "x"]].length + 1 ∧
    sample_op.execute Option.none sample_parse_result [] =
      Except.ok { finalOp := sample_exec_result.finalOp
                  paramsUsed := sample_exec_result.paramsUsed
                  headersUsed := sample_exec_result.headersUsed
                  fileLines := [csv_row sample_exec_result.headersUsed] } :=
  csv_output_rows_spec sample_op Option.none sample_parse_result
    [[Value.int 1, Value.str "x"]] sample_exec_result rfl

/-- Claim C8 (counterexample): header derivation is not total over all
SQL text inputs: when `sqlparse.parse` yields no statements (as for the
empty SQL text), the source's `[0]` raises an IndexError rather than
returning an empty header sequence. -/
theorem headers_from_sql_empty_parse_raises :
    _get_csv_headers_from_sql [] =
      Except.error "IndexError: tuple index out of range" ∧
    except_is_ok (_get_csv_headers_from_sql []) = false :=
  ⟨rfl, rfl⟩

/-- Claim C8 (amended): whenever the parse yields at least one
statement, header derivation is total — it returns normally, and a
statement in which no identifier list was found (an unparseable
select-list) yields the empty header sequence rather than an
exception; only an empty parse result raises. -/
theorem headers_total_on_nonempty_parse (stmt : List SqlToken)
    (rest : List (List SqlToken)) :
    except_is_ok (_get_csv_headers_from_sql (stmt :: rest)) = true ∧
    (collect_identifiers stmt = [] →
      _get_csv_headers_from_sql (stmt :: rest) = Except.ok []) := by
  constructor
  · rfl
  · intro h
    simp [_get_csv_headers_from_sql, h]

/-- Witness for C8 at a statement with no identifier list. -/
theorem headers_total_on_nonempty_parse_witness :
    except_is_ok
      (_get_csv_headers_from_sql
        ([SqlToken.other "select ", SqlToken.other "*", SqlToken.other " from t"] ::
          [])) = true ∧
    (collect_identifiers
        [SqlToken.other "select ", SqlToken.other "*", SqlToken.other " from t"] = [] →
      _get_csv_headers_from_sql
        ([SqlToken.other "select ", SqlToken.other "*", SqlToken.other " from t"] ::
          []) = Except.ok []) :=
  headers_total_on_nonempty_parse
    [SqlToken.other "select ", SqlToken.other "*", SqlToken.other " from t"] []

/-- Claim C9 (counterexample): a provided non-mapping `parameters` that
is falsy (such as the empty list) does not raise: the source's check is
`if self.parameters and not isinstance(self.parameters, dict)`, so the
falsy non-dict passes validation and construction succeeds. -/
theorem falsy_non_dict_params_accepted :
    except_is_ok
      (PostgresToCsvOperator.init "out.csv" (PyParameters.nonMapping false)
        "select 1" "" "" "" "" Option.none false
        (Value.str "1970-01-01 00:00:00+00:00")) = true := rfl

/-- Claim C9 (amended): a provided truthy non-mapping `parameters`
raises the SyntaxError (the spec's ConfigurationError) at
construction. -/
theorem truthy_non_dict_params_rejected
    (csv_file_path : String) (parameters : PyParameters) (sql : String)
    (postgres_conn_id : String) (destination_conn_id : String)
    (destination_table : String) (last_modified_fname : String)
    (headers : Option (List String)) (increment : Bool)
    (default_last_updated_value : Value)
    (h1 : parameters.truthy = true) (h2 : parameters.isDict = false) :
    PostgresToCsvOperator.init csv_file_path parameters sql postgres_conn_id
      destination_conn_id destination_table last_modified_fname headers increment
      default_last_updated_value =
      Except.error "SyntaxError: Argument \x27parameters\x27 must be type - dict" := by
  unfold PostgresToCsvOperator.init
  rw [h1, h2]
  rfl

/-- Witness for C9 at a concrete truthy non-mapping argument. -/
theorem truthy_non_dict_params_rejected_witness :
    PostgresToCsvOperator.init "out.csv" (PyParameters.nonMapping true) "select 1" ""
      "" "" "" Option.none false (Value.str "1970-01-01 00:00:00+00:00") =
      Except.error "SyntaxError: Argument \x27parameters\x27 must be type - dict" :=
  truthy_non_dict_params_rejected "out.csv" (PyParameters.nonMapping true) "select 1"
    "" "" "" "" Option.none false (Value.str "1970-01-01 00:00:00+00:00") rfl rfl

/-- Claim C10 (counterexample): the configuration is not read-only
during a run: at the concrete incremental operator `sample_inc_op`,
`execute` rebinds `self.parameters` (merging `last_updated_value`), so
a configuration field differs from its construction-time value. -/
theorem execute_mutates_parameters :
    sample_inc_op.execute watermark_row [] [] = Except.ok sample_inc_result ∧
    sample_inc_result.finalOp.parameters ≠ sample_inc_op.parameters :=
  ⟨rfl, by decide⟩

/-- Claim C10 (amended): `execute` leaves every configuration field at
its construction-time value except for the two documented mutations:
`parameters` may change only when the incremental flag is set (it is
unchanged when the flag is off), and `headers` may change only when it
was absent or empty (it is unchanged when supplied non-empty). -/
theorem execute_frame_spec (op : PostgresToCsvOperator)
    (d : Option (List Value)) (pr : List (List SqlToken))
    (res : List (List Value)) (r : ExecResult)
    (hok : op.execute d pr res = Except.ok r) :
    r.finalOp.sql = op.sql ∧
    r.finalOp.postgres_conn_id = op.postgres_conn_id ∧
    r.finalOp.destination_conn_id = op.destination_conn_id ∧
    r.finalOp.csv_file_path = op.csv_file_path ∧
    r.finalOp.increment = op.increment ∧
    r.finalOp.destination_table = op.destination_table ∧
    r.finalOp.last_modified_fname = op.last_modified_fname ∧
    r.finalOp.last_updated_sql = op.last_updated_sql ∧
    r.finalOp.default_last_updated_value = op.default_last_updated_value ∧
    (op.increment = false → r.finalOp.parameters = op.parameters) ∧
    (py_truthy_headers op.headers = true → r.finalOp.headers = op.headers) := by
  obtain ⟨op1, h1, h2, hparams, hfile⟩ := execute_ok_inv op d pr res r hok
  rcases step_increment_ok_cases op d op1 h1 with ⟨hinc, heq⟩ | ⟨hinc, v, ps, hv, hp, heq⟩ <;>
    subst heq
  · rcases step_headers_ok_cases _ pr r.finalOp r.headersUsed h2 with
      ⟨ht, hop2, hsome⟩ | ⟨ht, hds, hop2⟩
    · rw [hop2]
      exact ⟨rfl, rfl, rfl, rfl, rfl, rfl, rfl, rfl, rfl, fun _ => rfl, fun _ => rfl⟩
    · rw [hop2]
      refine ⟨rfl, rfl, rfl, rfl, rfl, rfl, rfl, rfl, rfl, fun _ => rfl, fun htrue => ?_⟩
      rw [htrue] at ht
      cases ht
  · rcases step_headers_ok_cases _ pr r.finalOp r.headersUsed h2 with
      ⟨ht, hop2, hsome⟩ | ⟨ht, hds, hop2⟩
    · rw [hop2]
      refine ⟨rfl, rfl, rfl, rfl, rfl, rfl, rfl, rfl, rfl, fun hfalse => ?_, fun _ => rfl⟩
      rw [hinc] at hfalse
      cases hfalse
    · rw [hop2]
      refine ⟨rfl, rfl, rfl, rfl, rfl, rfl, rfl, rfl, rfl, fun hfalse => ?_, fun htrue => ?_⟩
      · rw [hinc] at hfalse
        cases hfalse
      · have ht' : py_truthy_headers op.headers = false := ht
        rw [htrue] at ht'
        cases ht'

/-- Witness for C10 at a non-incremental run of `sample_op` with
derived headers. -/
theorem execute_frame_spec_witness :
    sample_exec_result.finalOp.sql = sample_op.sql ∧
    sample_exec_result.finalOp.postgres_conn_id = sample_op.postgres_conn_id ∧
    sample_exec_result.finalOp.destination_conn_id = sample_op.destination_conn_id ∧
    sample_exec_result.finalOp.csv_file_path = sample_op.csv_file_path ∧
    sample_exec_result.finalOp.increment = sample_op.increment ∧
    sample_exec_result.finalOp.destination_table = sample_op.destination_table ∧
    sample_exec_result.finalOp.last_modified_fname = sample_op.last_modified_fname ∧
    sample_exec_result.finalOp.last_updated_sql = sample_op.last_updated_sql ∧
    sample_exec_result.finalOp.default_last_updated_value =
      sample_op.default_last_updated_value ∧
    (sample_op.increment = false →
      sample_exec_result.finalOp.parameters = sample_op.parameters) ∧
    (py_truthy_headers sample_op.headers = true →
      sample_exec_result.finalOp.headers = sample_op.headers) :=
  execute_frame_spec sample_op Option.none sample_parse_result
    [[Value.int 1, Value.str "x"]] sample_exec_result rfl
